import Mathlib

/-!
# Verification of `atexit_tempfile` cleanup core

A shallow embedding of the cleanup lifecycle engine of the `atexit_tempfile`
repository (`src/atexit_tempfile/cleanup_classes.py` and
`src/atexit_tempfile/_cleanup_module.py`), together with theorems settling
the specification claims about it.

Modelling conventions:
* Python `pathlib.Path` values are modelled by `PyPath`: an absolute flag
  plus the list of components kept by `Path` (empty and `"."` components are
  dropped by the `Path` constructor, `".."` is kept; the embedding does not
  use `".."` inputs).  `Path("")` and `Path(".")` both normalise to the empty
  component list, so they are one and the same `PyPath` value, exactly as the
  two are `==`-equal in Python.
* The filesystem is a value `FS`: the current working directory, the set of
  regular files, the set of directories, plus the set of files whose removal
  is denied by the OS (`PermissionError`).  `os.remove` is the state update
  `osRemove`.
* Python exceptions that the code returns or raises are the value type
  `PyErr`; raising is modelled with `Except`, returning an error as a value
  with `Option PyErr` (so a function whose Lean type is not `Except` cannot
  "raise" at all — this is the embedding of "never raises").
* `check_path` inspects its argument with `is`/`isinstance`/`==` before
  converting, so its input is the dynamic value type `PyVal`.
* Object state of `CleanupWithDel` / `CleanupWithFinalize` is explicit;
  mutation threads the state.  Deletion attempts (invocations of `_cleanup`)
  are logged as a `List PyPath` so "exactly one deletion attempt" is a
  statement about the log.
-/

set_option autoImplicit false

namespace AtexitTempfile

/-- A Python `pathlib.Path` value: anchor flag and components. -/
structure PyPath where
  absolute : Bool
  parts : List String
deriving DecidableEq, Repr

/-- The value `Path("")`, which Python renders as `"."`; it is also the
value of `Path(".")`. -/
def emptyPath : PyPath := ⟨false, []⟩

/-- Split a character list at every occurrence of the separator, keeping
empty groups (the behaviour of splitting a path string on `/`). -/
def splitOnChar (c : Char) : List Char → List (List Char)
  | [] => [[]]
  | a :: rest =>
    let r := splitOnChar c rest
    if a = c then [] :: r
    else
      match r with
      | [] => [[a]]
      | g :: gs => (a :: g) :: gs

/-- The `Path(s)` constructor on a string: leading `/` sets the anchor, and
empty and `"."` components are dropped. -/
def pathOfString (s : String) : PyPath :=
  { absolute := decide (s.data.head? = some '/')
  , parts := ((splitOnChar '/' s.data).map String.mk).filter
      (fun c => c ≠ "" ∧ c ≠ ".") }

/-- Rendering `str(path)`, used in the interpolated error messages of the
source. -/
def pathStr (p : PyPath) : String :=
  if p.parts.isEmpty then (if p.absolute then "/" else ".")
  else (if p.absolute then "/" else "") ++ String.intercalate "/" p.parts

/-- Test `p.is_relative_to(q)`: same anchor, and the components of `q` are
a prefix of the components of `p`.  Pure-path operation, no resolution
against the filesystem. -/
def isRelativeTo (p q : PyPath) : Bool :=
  p.absolute = q.absolute ∧ q.parts.isPrefixOf p.parts

/-- The filesystem state seen by the cleanup code. -/
structure FS where
  /-- components of the (absolute) current working directory -/
  cwd : List String
  /-- absolute paths of the regular files present -/
  files : List PyPath
  /-- absolute paths of the directories present -/
  dirs : List PyPath
  /-- files whose removal the OS denies with `PermissionError` -/
  locked : List PyPath
deriving DecidableEq, Repr

/-- The absolute path the OS resolves `p` to: relative paths are looked up
under the current working directory. -/
def resolve (fs : FS) (p : PyPath) : PyPath :=
  if p.absolute then p else ⟨true, fs.cwd ++ p.parts⟩

/-- Test `path.exists()`. -/
def pathExists (fs : FS) (p : PyPath) : Bool :=
  resolve fs p ∈ fs.files ∨ resolve fs p ∈ fs.dirs

/-- Test `path.is_file()`. -/
def isFile (fs : FS) (p : PyPath) : Bool :=
  resolve fs p ∈ fs.files

/-- Python exception values appearing in the two modules. -/
inductive PyErr where
  | typeError (msg : String)
  | valueError (msg : String)
  | fileNotFoundError (msg : String)
  | isADirectoryError (msg : String)
  | permissionError (msg : String)
  | osError (msg : String)
deriving DecidableEq, Repr

/-- Removal `os.remove(path)`: deletes the file, or raises (here: yields)
`IsADirectoryError`, `PermissionError` or `FileNotFoundError`. -/
def osRemove (fs : FS) (p : PyPath) : FS × Option PyErr :=
  let r := resolve fs p
  if r ∈ fs.dirs then
    (fs, some (.isADirectoryError (pathStr p)))
  else if r ∈ fs.files then
    if r ∈ fs.locked then (fs, some (.permissionError (pathStr p)))
    else ({ fs with files := fs.files.filter (· ≠ r) }, none)
  else
    (fs, some (.fileNotFoundError (pathStr p)))

/-- A Python runtime value handed to `check_path` / `_cleanup`. -/
inductive PyVal where
  | none
  | str (s : String)
  | path (p : PyPath)
  | int (n : Int)
  | boolVal (b : Bool)
deriving DecidableEq, Repr

namespace PyVal

/-- Test `isinstance(v, str)`. -/
def isStr : PyVal → Bool
  | .str _ => true
  | _ => false

/-- Test `isinstance(v, Path)`. -/
def isPath : PyVal → Bool
  | .path _ => true
  | _ => false

/-- Python `v == ""` (equality across types is `False`). -/
def eqEmptyStr : PyVal → Bool
  | .str s => s = ""
  | _ => false

/-- Python `v == Path("")` (equality across types is `False`). -/
def eqEmptyPath : PyVal → Bool
  | .path p => p = emptyPath
  | _ => false

/-- Conversion `Path(v)` for the values on which the source reaches the
conversion
(strings and paths); other values have been rejected with `TypeError`
before this point, the fallback is never used. -/
def toPath : PyVal → PyPath
  | .str s => pathOfString s
  | .path p => p
  | _ => emptyPath

/-- Rendering of `type(v)` as printed in the `TypeError` message of
`_cleanup` (the quotation marks Python puts around the class name are
omitted). -/
def typeName : PyVal → String
  | .none => "<class NoneType>"
  | .str _ => "<class str>"
  | .path _ => "<class pathlib.PosixPath>"
  | .int _ => "<class int>"
  | .boolVal _ => "<class bool>"

end PyVal

/-- Function `check_path` of `cleanup_classes.py`: validates that the argument is a
non-empty string-or-`Path` naming an existing regular file inside the temp
directory, returning the `Path` or raising.  `tempDir` is the module constant
`TEMP_DIR = gettempdir()`. -/
def check_path (fs : FS) (tempDir : PyPath) (v : PyVal) : Except PyErr PyPath :=
  if v = PyVal.none ∨ v.eqEmptyStr ∨ v.eqEmptyPath then
    .error (.valueError "path cannot be empty")
  else if ¬ (v.isStr ∨ v.isPath) then
    .error (.typeError "path must be a string or Path")
  else
    let p := v.toPath
    if ¬ pathExists fs p then
      .error (.fileNotFoundError ("Path does not exist: " ++ pathStr p))
    else if ¬ isFile fs p then
      .error (.valueError ("Path is not a file: " ++ pathStr p))
    else if ¬ isRelativeTo p tempDir then
      .error (.valueError ("Path is not in temp directory: " ++ pathStr p))
    else
      .ok p

/-- Function `_cleanup` of `_cleanup_module.py`: defensively re-checks the argument,
then removes the file; every failure is returned as a value, never raised
(in the embedding: the result type is a pair, not `Except`). -/
def _cleanup (fs : FS) (tempDir : PyPath) (v : PyVal) : FS × Option PyErr :=
  match v with
  | .path p =>
    if p = emptyPath then
      (fs, some (.valueError "path cannot be empty"))
    else if ¬ isRelativeTo p tempDir then
      (fs, some (.valueError ("path is not in temp directory: " ++ pathStr p)))
    else
      osRemove fs p
  | w => (fs, some (.typeError ("path must be type Path: is " ++ w.typeName)))

/-- The deleter `_cleanup` applied to a `Path` value, as the handle classes
always do. -/
def cleanupPath (fs : FS) (tempDir : PyPath) (p : PyPath) : FS × Option PyErr :=
  _cleanup fs tempDir (.path p)

/-- The state of a fully constructed `CleanupWithDel` object: the validated
path and the `_cleaned_up` flag set by `_init`. -/
structure CleanupWithDel where
  _path : PyPath
  _cleaned_up : Bool
deriving DecidableEq, Repr

/-- Outcome of one method call on a `CleanupWithDel`: the updated object, the
updated filesystem, the deletion attempts made (`_cleanup` invocations, each
logged by the path passed), and the value returned. -/
structure DelStep where
  obj : CleanupWithDel
  fs : FS
  attempts : List PyPath
  ret : Option PyErr
deriving DecidableEq, Repr

/-- Method `CleanupWithDel.cleanup`: on the first call runs `_cleanup(self.path)`,
sets `_cleaned_up`, and returns the error value; afterwards returns `None`
without touching the filesystem. -/
def CleanupWithDel.cleanup (tempDir : PyPath) (h : CleanupWithDel) (fs : FS) :
    DelStep :=
  if ¬ h._cleaned_up then
    let (fs', exc) := cleanupPath fs tempDir h._path
    ⟨{ h with _cleaned_up := true }, fs', [h._path], exc⟩
  else
    ⟨h, fs, [], none⟩

/-- A `CleanupWithDel` object as the garbage collector may see it: either
fully constructed (`_initialized = True`), or the carcass left behind when
`__init__` raised inside `check_path` — then only `_initialized = False` was
ever assigned, there is no `_path` and no `_cleaned_up` attribute. -/
inductive DelObj where
  | uninit
  | ready (h : CleanupWithDel)
deriving DecidableEq, Repr

/-- Destructor `CleanupWithDel.__del__`: bails out when the object never finished
`__init__` (the `_initialized` guard), otherwise calls `cleanup()` and
discards its return value. -/
def DelObj.del (tempDir : PyPath) (o : DelObj) (fs : FS) :
    DelObj × FS × List PyPath :=
  match o with
  | .uninit => (.uninit, fs, [])
  | .ready h =>
    let s := h.cleanup tempDir fs
    (.ready s.obj, s.fs, s.attempts)

/-- Constructor `CleanupWithDel(path)` (the shared `Cleanup.__init__` with
the
`CleanupWithDel._init`): validates via `check_path`; on failure the exception
propagates and the object is left partially initialized, on success the flags
are set. -/
def CleanupWithDel.initObj (fs : FS) (tempDir : PyPath) (v : PyVal) :
    DelObj × Option PyErr :=
  match check_path fs tempDir v with
  | .error e => (.uninit, some e)
  | .ok p => (.ready { _path := p, _cleaned_up := false }, none)

/-- The state of a fully constructed `CleanupWithFinalize` object: the
validated path and whether its `weakref.finalize` is still alive. -/
structure CleanupWithFinalize where
  _path : PyPath
  /-- the finalizer's alive flag: `weakref.finalize` fires its callback at
  most once, calls after it is dead return `None` -/
  finalizerAlive : Bool
deriving DecidableEq, Repr

/-- Outcome of one method call on a `CleanupWithFinalize`. -/
structure FinStep where
  obj : CleanupWithFinalize
  fs : FS
  attempts : List PyPath
  ret : Option PyErr
deriving DecidableEq, Repr

/-- Method `CleanupWithFinalize.cleanup`: invokes the finalizer.  While alive the
finalizer marks itself dead, runs `_cleanup(path)` and returns its result;
once dead it returns `None`. -/
def CleanupWithFinalize.cleanup (tempDir : PyPath) (h : CleanupWithFinalize)
    (fs : FS) : FinStep :=
  if h.finalizerAlive then
    let (fs', exc) := cleanupPath fs tempDir h._path
    ⟨{ h with finalizerAlive := false }, fs', [h._path], exc⟩
  else
    ⟨h, fs, [], none⟩

/-- Constructor `CleanupWithFinalize(path)`: validates via `check_path`;
only on success
does `_init` run and attach `finalize(self, _cleanup, self.path)`.  The second
component records the finalizers attached during construction (by callback
argument). -/
def CleanupWithFinalize.init (fs : FS) (tempDir : PyPath) (v : PyVal) :
    Except PyErr CleanupWithFinalize × List PyPath :=
  match check_path fs tempDir v with
  | .error e => (.error e, [])
  | .ok p => (.ok { _path := p, finalizerAlive := true }, [p])

/-- A handle of either class, as stored in the registry
`Cleanup._delay_till_exit`. -/
inductive Entry where
  | withDel (h : CleanupWithDel)
  | withFin (h : CleanupWithFinalize)
deriving DecidableEq, Repr

namespace Entry

/-- The `path` property of the handle. -/
def path : Entry → PyPath
  | .withDel h => h._path
  | .withFin h => h._path

/-- A handle that has not yet performed its deletion: the freshly
constructed state of either class. -/
def fresh : Entry → Bool
  | .withDel h => ¬ h._cleaned_up
  | .withFin h => h.finalizerAlive

/-- The handle state after its one-shot deletion has fired: the
`_cleaned_up` flag set, or the finalizer dead. -/
def spend : Entry → Entry
  | .withDel h => .withDel { h with _cleaned_up := true }
  | .withFin h => .withFin { h with finalizerAlive := false }

/-- Outcome of a `cleanup()` call on a registry entry. -/
structure Step where
  obj : Entry
  fs : FS
  attempts : List PyPath
  ret : Option PyErr
deriving DecidableEq, Repr

/-- Call of `cleanup()` dispatched on the class of the handle. -/
def cleanup (tempDir : PyPath) (e : Entry) (fs : FS) : Step :=
  match e with
  | .withDel h =>
    let s := h.cleanup tempDir fs
    ⟨.withDel s.obj, s.fs, s.attempts, s.ret⟩
  | .withFin h =>
    let s := h.cleanup tempDir fs
    ⟨.withFin s.obj, s.fs, s.attempts, s.ret⟩

end Entry

/-- Outcome of calling `cleanup()` `n` times in a row on one handle:
the final object and filesystem, the concatenated deletion-attempt log, and
the list of the `n` return values in call order. -/
structure RunN where
  obj : Entry
  fs : FS
  attempts : List PyPath
  rets : List (Option PyErr)
deriving DecidableEq, Repr

/-- Call `cleanup()` `n` times in a row on a handle. -/
def cleanupN (tempDir : PyPath) : Nat → Entry → FS → RunN
  | 0, e, fs => ⟨e, fs, [], []⟩
  | n + 1, e, fs =>
    let s := e.cleanup tempDir fs
    let r := cleanupN tempDir n s.obj s.fs
    ⟨r.obj, r.fs, s.attempts ++ r.attempts, s.ret :: r.rets⟩

/-- The process-wide state around the registry: the live handle objects (the
heap, addressed by index, since `Cleanup._delay_till_exit` stores references
and `cleanup()` mutates the referenced object in place), the registry list of
references, and the filesystem. -/
structure World where
  heap : List Entry
  registry : List Nat
  fs : FS
deriving DecidableEq, Repr

/-- Enrollment `Cleanup._delay_till_exit.append(self)` at the end of a
successful
construction of a handle with `delay_till_exit=True`: the new object goes on
the heap and its reference is appended to the registry.  Returns the new
world and the reference. -/
def World.enroll (w : World) (e : Entry) : World × Nat :=
  ({ w with heap := w.heap ++ [e], registry := w.registry ++ [w.heap.length] },
   w.heap.length)

/-- State threaded through the drain loop of `_on_finalize`: heap and
filesystem, the log of deletion attempts (`_cleanup` invocations), and the
log of `cleanup()` calls made by the loop (by reference, in call order). -/
structure DrainSt where
  heap : List Entry
  fs : FS
  attempts : List PyPath
  calls : List Nat
deriving DecidableEq, Repr

/-- The loop `for ret in list(delay_till_exit): ret.cleanup()`, iterating
over a snapshot of references.  A dangling reference (index past the heap)
cannot arise in the source, where the list holds live objects; the loop
skips it. -/
def drainLoop (tempDir : PyPath) : List Nat → DrainSt → DrainSt
  | [], st => st
  | i :: rest, st =>
    match st.heap[i]? with
    | some e =>
      let s := e.cleanup tempDir st.fs
      drainLoop tempDir rest
        ⟨st.heap.set i s.obj, s.fs, st.attempts ++ s.attempts, st.calls ++ [i]⟩
    | none => drainLoop tempDir rest st

/-- Clearing `list.clear()`. -/
def clearList (_l : List Nat) : List Nat := []

/-- Result of one `_on_finalize()` run. -/
structure DrainResult where
  world : World
  attempts : List PyPath
  calls : List Nat
deriving DecidableEq, Repr

/-- Function `_on_finalize` of `cleanup_classes.py`: snapshots the
registry, calls
`cleanup()` on each snapshotted entry in insertion order, then clears the
registry.  `midAdds` are the references enrolled while the loop runs (after
the snapshot was taken); `delay_till_exit.clear()` empties the list whether
or not such additions happened. -/
def onFinalize (tempDir : PyPath) (w : World) (midAdds : List Nat) :
    DrainResult :=
  let snapshot := w.registry
  let st := drainLoop tempDir snapshot ⟨w.heap, w.fs, [], []⟩
  { world := { heap := st.heap
             , registry := clearList (w.registry ++ midAdds)
             , fs := st.fs }
  , attempts := st.attempts
  , calls := st.calls }

/-- Decidable equality of `check_path` results, so concrete validation
outcomes can be settled by `decide`. -/
instance : DecidableEq (Except PyErr PyPath) := fun a b =>
  match a, b with
  | .error e, .error f =>
    if h : e = f then isTrue (by rw [h]) else isFalse (fun hh => h (by injection hh))
  | .error _, .ok _ => isFalse (fun hh => Except.noConfusion hh)
  | .ok _, .error _ => isFalse (fun hh => Except.noConfusion hh)
  | .ok a, .ok b =>
    if h : a = b then isTrue (by rw [h]) else isFalse (fun hh => h (by injection hh))

/-! ## Concrete data used by witnesses and counterexamples -/

/-- The temp-directory root `/tmp` used in concrete scenarios. -/
def tdW : PyPath := ⟨true, ["tmp"]⟩

/-- A regular file `/tmp/f1` used in concrete scenarios. -/
def fW : PyPath := ⟨true, ["tmp", "f1"]⟩

/-- A second regular file `/tmp/f2` used in concrete scenarios. -/
def fW2 : PyPath := ⟨true, ["tmp", "f2"]⟩

/-- A filesystem with `/tmp` a directory and `/tmp/f1`, `/tmp/f2` regular
files, current working directory `/`. -/
def fsW : FS := { cwd := [], files := [fW, fW2], dirs := [tdW], locked := [] }

/-- A world with two deferred handles (one of each class) enrolled. -/
def wDrain : World :=
  { heap := [.withDel ⟨fW, false⟩, .withFin ⟨fW2, true⟩]
  , registry := [0, 1], fs := fsW }

/-- A world with a single deferred handle on `/tmp/f1` enrolled. -/
def wC5 : World :=
  { heap := [.withDel ⟨fW, false⟩], registry := [0], fs := fsW }

/-- A world where the handle on `/tmp/f1` is enrolled and the handle on
`/tmp/f2` exists but is enrolled only while the drain is running. -/
def wC9 : World :=
  { heap := [.withDel ⟨fW, false⟩, .withDel ⟨fW2, false⟩]
  , registry := [0], fs := fsW }

/-! ## Supporting lemmas -/

/-- Success characterization of `check_path`: it returns exactly the input
converted by the `Path` constructor — no canonicalization — and all its
filesystem checks and the temp-root check are about that converted path. -/
theorem check_path_ok_iff (fs : FS) (td : PyPath) (v : PyVal) (p : PyPath) :
    check_path fs td v = .ok p ↔
      ¬ (v = PyVal.none ∨ v.eqEmptyStr = true ∨ v.eqEmptyPath = true) ∧
      (v.isStr = true ∨ v.isPath = true) ∧
      pathExists fs v.toPath = true ∧ isFile fs v.toPath = true ∧
      isRelativeTo v.toPath td = true ∧ p = v.toPath := by
  unfold check_path
  constructor
  · intro h
    split_ifs at h with h1 h2; simp_all
    split_ifs at h with h3 h4 h5; simp_all
  · rintro ⟨h1, h2, h3, h4, h5, rfl⟩
    rw [if_neg h1, if_neg (not_not_intro h2), if_neg (by simp [h3]),
      if_neg (by simp [h4]), if_neg (by simp [h5])]

/-! ## C7 — `check_path` and canonicalization -/

/-- C7, counterexample.  The claim says `check_path` returns the resolved
absolute path and performs the temp-root check on the resolved absolute
path.  Input: the relative path `tmp/f1` with current working directory `/`.
Its resolution is `/tmp/f1`: an existing regular file strictly under the
temp root, so under the claim validation would succeed and return the
resolved path.  The code never resolves: it applies `is_relative_to` to the
relative path as written and rejects it. -/
theorem check_path_resolves_counterexample :
    resolve fsW ⟨false, ["tmp", "f1"]⟩ = fW ∧
    isFile fsW ⟨false, ["tmp", "f1"]⟩ = true ∧
    isRelativeTo (resolve fsW ⟨false, ["tmp", "f1"]⟩) tdW = true ∧
    check_path fsW tdW (.path ⟨false, ["tmp", "f1"]⟩) =
      .error (.valueError "Path is not in temp directory: tmp/f1") := by
  refine ⟨rfl, by decide, by decide, by decide⟩

/-- C7, amended.  `check_path` performs no canonicalization: on success it
returns exactly `Path(input)` — for a `Path` input the very path that was
passed in — and both the file test and the temp-root test are applied to
that unresolved path. -/
theorem check_path_returns_input_unresolved (fs : FS) (td : PyPath)
    (v : PyVal) (p : PyPath) (h : check_path fs td v = .ok p) :
    p = v.toPath ∧ isFile fs p = true ∧ isRelativeTo p td = true := by
  rcases (check_path_ok_iff fs td v p).1 h with ⟨-, -, -, hfile, hrel, rfl⟩
  exact ⟨rfl, hfile, hrel⟩

/-- C7, witness: a valid `Path` input under the root comes back unchanged. -/
theorem check_path_returns_input_unresolved_witness :
    fW = (PyVal.path fW).toPath ∧ isFile fsW fW = true ∧
      isRelativeTo fW tdW = true :=
  check_path_returns_input_unresolved fsW tdW (.path fW) fW (by decide)

/-! ## C8 — non-path-like inputs to `check_path` -/

/-- C8, counterexample.  The claim says every non-string non-path value,
including `None`, fails with `TypeError`.  But `check_path` tests emptiness
before type, and its first guard is `path is None or ...`, so `None` is
reported as the empty path: a `ValueError`, not a `TypeError`. -/
theorem check_path_none_counterexample :
    check_path fsW tdW .none = .error (.valueError "path cannot be empty") := by
  decide

/-- C8, amended.  Every value that is neither a string nor a `Path` and is
not `None` fails with the `TypeError` kind; `None` alone is intercepted by
the emptiness guard and fails with `ValueError` instead. -/
theorem check_path_type_mismatch (fs : FS) (td : PyPath) (v : PyVal)
    (hs : v.isStr = false) (hp : v.isPath = false) (hn : v ≠ .none) :
    check_path fs td v = .error (.typeError "path must be a string or Path") := by
  cases v with
  | none => exact absurd rfl hn
  | str s => simp [PyVal.isStr] at hs
  | path p => simp [PyVal.isPath] at hp
  | int n =>
    unfold check_path
    rw [if_neg (by simp [PyVal.eqEmptyStr, PyVal.eqEmptyPath]),
      if_pos (by simp [PyVal.isStr, PyVal.isPath])]
  | boolVal b =>
    unfold check_path
    rw [if_neg (by simp [PyVal.eqEmptyStr, PyVal.eqEmptyPath]),
      if_pos (by simp [PyVal.isStr, PyVal.isPath])]

/-- C8, witness: the integer `3` is rejected with `TypeError`. -/
theorem check_path_type_mismatch_witness :
    check_path fsW tdW (.int 3) =
      .error (.typeError "path must be a string or Path") :=
  check_path_type_mismatch fsW tdW (.int 3) rfl rfl (by decide)

/-! ## C10 — the path `"."` counts as the empty path -/

/-- C10.  `Path("")` normalizes to `"."`, so `Path(".")` is the very value
`Path("")`: the validator rejects it as the empty path with
`ValueError("path cannot be empty")`, and the deleter returns the same
`ValueError` with the filesystem untouched — in both cases the rejection is
decided before any filesystem access (the result holds for every filesystem
state and temp root, and the returned state is the input state). -/
theorem dot_is_empty_path (fs : FS) (td : PyPath) :
    pathOfString "." = emptyPath ∧
    check_path fs td (.path (pathOfString ".")) =
      .error (.valueError "path cannot be empty") ∧
    _cleanup fs td (.path (pathOfString ".")) =
      (fs, some (.valueError "path cannot be empty")) := by
  have hd : pathOfString "." = emptyPath := by decide
  refine ⟨hd, ?_, ?_⟩ <;> rw [hd] <;> rfl

/-- Success condition: `os.remove` succeeds exactly on an existing,
non-directory, unlocked
file. -/
theorem osRemove_snd_none_iff (fs : FS) (p : PyPath) :
    (osRemove fs p).2 = none ↔
      (resolve fs p ∈ fs.files ∧ resolve fs p ∉ fs.dirs ∧
        resolve fs p ∉ fs.locked) := by
  simp only [osRemove]
  split_ifs with h1 h2 h3 <;> simp_all

/-- A failed `os.remove` leaves the filesystem unchanged. -/
theorem osRemove_fail_fst (fs : FS) (p : PyPath) (e : PyErr)
    (h : (osRemove fs p).2 = some e) : (osRemove fs p).1 = fs := by
  revert h
  simp only [osRemove]
  split_ifs <;> simp_all

/-! ## C2 — the deleter returns all failures as values -/

/-- C2.  `_cleanup` never raises — in the embedding its result type is a
plain pair, every failure is a returned value.  The returned error is:
`TypeError` for any non-`Path` input, `ValueError` for the empty path,
`ValueError` for a path outside the temp root, and otherwise exactly the
outcome of the OS removal (`IsADirectoryError`, `PermissionError`,
`FileNotFoundError`, or success); the result is `none` precisely when the
OS-level removal succeeded.  On every failure the filesystem is returned
unchanged. -/
theorem cleanup_returns_errors_as_values (fs : FS) (td : PyPath) (v : PyVal) :
    ((_cleanup fs td v).2 = none ↔
      (∃ p, v = .path p ∧ p ≠ emptyPath ∧ isRelativeTo p td = true ∧
        resolve fs p ∈ fs.files ∧ resolve fs p ∉ fs.dirs ∧
        resolve fs p ∉ fs.locked)) ∧
    (v.isPath = false →
      _cleanup fs td v =
        (fs, some (.typeError ("path must be type Path: is " ++ v.typeName)))) ∧
    (∀ p, v = .path p → p = emptyPath →
      _cleanup fs td v = (fs, some (.valueError "path cannot be empty"))) ∧
    (∀ p, v = .path p → p ≠ emptyPath → isRelativeTo p td = false →
      _cleanup fs td v =
        (fs, some (.valueError ("path is not in temp directory: " ++ pathStr p)))) ∧
    (∀ p, v = .path p → p ≠ emptyPath → isRelativeTo p td = true →
      _cleanup fs td v = osRemove fs p) ∧
    (∀ e, (_cleanup fs td v).2 = some e → (_cleanup fs td v).1 = fs) := by
  cases v with
  | path p =>
    by_cases he : p = emptyPath
    · subst he
      refine ⟨by simp [_cleanup], by simp [PyVal.isPath], ?_, ?_, ?_, ?_⟩ <;>
        simp [_cleanup]
    · by_cases hr : isRelativeTo p td = true
      · have hcl : _cleanup fs td (.path p) = osRemove fs p := by
          simp [_cleanup, he, hr]
        refine ⟨?_, by simp [PyVal.isPath], by simp [he], by simp [hr], ?_, ?_⟩
        · rw [hcl, osRemove_snd_none_iff]
          constructor
          · rintro ⟨h1, h2, h3⟩
            exact ⟨p, rfl, he, hr, h1, h2, h3⟩
          · rintro ⟨q, hq, -, -, h1, h2, h3⟩
            injection hq with hq
            subst hq
            exact ⟨h1, h2, h3⟩
        · intro q hq
          injection hq with hq
          subst hq
          intro _ _
          exact hcl
        · intro e hh
          rw [hcl] at hh ⊢
          exact osRemove_fail_fst fs p e hh
      · have hr' : isRelativeTo p td = false := by simpa using hr
        have hcl : _cleanup fs td (.path p) =
            (fs, some (.valueError ("path is not in temp directory: " ++ pathStr p))) := by
          simp [_cleanup, he, hr']
        refine ⟨?_, by simp [PyVal.isPath], by simp [he], ?_, ?_, ?_⟩
        · rw [hcl]
          constructor
          · intro h
            cases h
          · rintro ⟨q, hq, -, hrel, -⟩
            injection hq with hq
            subst hq
            exact absurd hrel (by simp [hr'])
        · intro q hq
          injection hq with hq
          subst hq
          intro _ _
          exact hcl
        · intro q hq
          injection hq with hq
          subst hq
          intro _ hrel
          exact absurd hrel (by simp [hr'])
        · intro e _
          rw [hcl]
  | none => refine ⟨by simp [_cleanup], fun _ => rfl, by simp, by simp, by simp, by simp [_cleanup]⟩
  | str s => refine ⟨by simp [_cleanup], fun _ => rfl, by simp, by simp, by simp, by simp [_cleanup]⟩
  | int n => refine ⟨by simp [_cleanup], fun _ => rfl, by simp, by simp, by simp, by simp [_cleanup]⟩
  | boolVal b => refine ⟨by simp [_cleanup], fun _ => rfl, by simp, by simp, by simp, by simp [_cleanup]⟩

/-- C2, witness: deleting the existing unlocked file `/tmp/f1` succeeds, and
the success-iff direction of the characterization is discharged at it. -/
theorem cleanup_returns_errors_as_values_witness :
    (_cleanup fsW tdW (.path fW)).2 = none :=
  (cleanup_returns_errors_as_values fsW tdW (.path fW)).1.2
    ⟨fW, rfl, by decide, by decide, by decide, by decide, by decide⟩

/-! ## C1 — `cleanup()` is idempotent on both handle classes -/

/-- A spent handle — `_cleaned_up` already set, or the finalizer already
dead — makes `cleanup()` a no-op returning `None`. -/
theorem Entry.cleanup_spent (td : PyPath) (e : Entry) (fs : FS)
    (h : e.fresh = false) : e.cleanup td fs = ⟨e, fs, [], none⟩ := by
  cases e with
  | withDel h' =>
    simp [Entry.fresh] at h
    simp [Entry.cleanup, CleanupWithDel.cleanup, h]
  | withFin h' =>
    simp [Entry.fresh] at h
    simp [Entry.cleanup, CleanupWithFinalize.cleanup, h]

/-- A fresh handle's `cleanup()` runs `_cleanup` once on its path and leaves
the handle spent. -/
theorem Entry.cleanup_fresh (td : PyPath) (e : Entry) (fs : FS)
    (h : e.fresh = true) :
    e.cleanup td fs =
      ⟨e.spend, (cleanupPath fs td e.path).1, [e.path],
        (cleanupPath fs td e.path).2⟩ ∧
    e.spend.fresh = false := by
  cases e with
  | withDel h' =>
    simp [Entry.fresh] at h
    simp [Entry.cleanup, CleanupWithDel.cleanup, h, Entry.spend, Entry.fresh,
      Entry.path]
  | withFin h' =>
    simp [Entry.fresh] at h
    simp [Entry.cleanup, CleanupWithFinalize.cleanup, h, Entry.spend,
      Entry.fresh, Entry.path]

/-- Iterating `cleanup()` on a spent handle changes nothing and returns
`None` every time. -/
theorem cleanupN_spent (td : PyPath) (n : Nat) (e : Entry) (fs : FS)
    (h : e.fresh = false) :
    cleanupN td n e fs = ⟨e, fs, [], List.replicate n none⟩ := by
  induction n with
  | zero => simp [cleanupN]
  | succ m ih =>
    simp [cleanupN, Entry.cleanup_spent td e fs h, ih, List.replicate_succ]

/-- C1.  For a successfully constructed handle of either class
(`CleanupWithDel` or `CleanupWithFinalize`, i.e. any fresh `Entry`), `n ≥ 1`
consecutive `cleanup()` calls invoke the underlying deleter `_cleanup`
exactly once, on the handle's path; the first call returns the deleter's
result and every later call is a no-op returning `None` — also when the
first attempt returned an error, which is never retried. -/
theorem cleanup_idempotent (td : PyPath) (fs : FS) (e : Entry) (n : Nat)
    (hf : e.fresh = true) (hn : 1 ≤ n) :
    (cleanupN td n e fs).attempts = [e.path] ∧
    (cleanupN td n e fs).rets =
      (cleanupPath fs td e.path).2 :: List.replicate (n - 1) none := by
  obtain ⟨m, rfl⟩ : ∃ m, n = m + 1 :=
    ⟨n - 1, (Nat.succ_pred_eq_of_pos hn).symm⟩
  obtain ⟨hstep, hspent⟩ := Entry.cleanup_fresh td e fs hf
  simp [cleanupN, hstep, cleanupN_spent td m _ _ hspent]

/-- C1, witness: three `cleanup()` calls on a fresh `CleanupWithDel` handle
for `/tmp/f1` make one deletion attempt; the later calls return `None`. -/
theorem cleanup_idempotent_witness :
    (Entry.withDel ⟨fW, false⟩).fresh = true ∧ 1 ≤ 3 ∧
    (cleanupN tdW 3 (.withDel ⟨fW, false⟩) fsW).attempts =
      [(Entry.withDel ⟨fW, false⟩).path] ∧
    (cleanupN tdW 3 (.withDel ⟨fW, false⟩) fsW).rets =
      (cleanupPath fsW tdW (Entry.withDel ⟨fW, false⟩).path).2 ::
        List.replicate 2 none :=
  ⟨by decide, by decide,
    cleanup_idempotent tdW fsW (.withDel ⟨fW, false⟩) 3 (by decide) (by decide)⟩

/-! ## C3 — failed construction never deletes -/

/-- C3.  When `check_path` rejects the path, construction of either handle
class fails with that exception and no deletion can ever follow: the
partially initialized `CleanupWithDel` (only `_initialized = False` was
assigned) is left in the `uninit` state whose `__del__` returns at the
`_initialized` guard without any deletion attempt, on any filesystem state;
and the failed `CleanupWithFinalize` construction attaches no finalizer. -/
theorem construction_failure_no_deletion (fs fs2 : FS) (td : PyPath)
    (v : PyVal) (e : PyErr) (h : check_path fs td v = .error e) :
    CleanupWithDel.initObj fs td v = (.uninit, some e) ∧
    DelObj.del td .uninit fs2 = (.uninit, fs2, []) ∧
    CleanupWithFinalize.init fs td v = (.error e, []) := by
  refine ⟨?_, rfl, ?_⟩ <;>
    simp [CleanupWithDel.initObj, CleanupWithFinalize.init, h]

/-- C3, witness: constructing from `None` fails validation and destruction
of the partial object attempts nothing. -/
theorem construction_failure_no_deletion_witness :
    CleanupWithDel.initObj fsW tdW .none =
      (.uninit, some (.valueError "path cannot be empty")) ∧
    DelObj.del tdW .uninit fsW = (.uninit, fsW, []) ∧
    CleanupWithFinalize.init fsW tdW .none =
      (.error (.valueError "path cannot be empty"), []) :=
  construction_failure_no_deletion fsW fsW tdW .none
    (.valueError "path cannot be empty") (by decide)

/-! ## C6 — scope-bound deletion through `__del__` -/

/-- C6.  A `CleanupWithDel` handle constructed successfully (here with
`delay_till_exit=False`, so the handle is only reachable from its scope) on
a deletable file — not a directory entry, not write-protected, not the empty
path — deletes the file through `__del__` alone when its scope ends: after
object destruction the file no longer exists, and exactly one deletion
attempt was made, without `cleanup()` ever being called explicitly.  Scope
exit is modelled as the host runtime invoking `__del__`, the contract the
spec requires of the runtime. -/
theorem scope_exit_deletes_file (fs : FS) (td : PyPath) (v : PyVal)
    (p : PyPath)
    (hinit : CleanupWithDel.initObj fs td v = (.ready ⟨p, false⟩, none))
    (hne : p ≠ emptyPath)
    (hnd : resolve fs p ∉ fs.dirs)
    (hnl : resolve fs p ∉ fs.locked) :
    (DelObj.del td (.ready ⟨p, false⟩) fs).2.2 = [p] ∧
    pathExists (DelObj.del td (.ready ⟨p, false⟩) fs).2.1 p = false := by
  have hok : check_path fs td v = .ok p := by
    unfold CleanupWithDel.initObj at hinit
    cases hc : check_path fs td v with
    | error e => rw [hc] at hinit; simp at hinit
    | ok q =>
      rw [hc] at hinit
      simp only [Prod.mk.injEq, DelObj.ready.injEq,
        CleanupWithDel.mk.injEq] at hinit
      rw [hinit.1.1]
  obtain ⟨-, -, -, hfile, hrel, hp⟩ := (check_path_ok_iff fs td v p).1 hok
  rw [← hp] at hfile hrel
  have hmem : resolve fs p ∈ fs.files := by simpa [isFile] using hfile
  have hstep : cleanupPath fs td p =
      ({ fs with files := fs.files.filter (· ≠ resolve fs p) }, none) := by
    simp [cleanupPath, _cleanup, hne, hrel, osRemove, hnd, hnl, hmem]
  have hdel : DelObj.del td (.ready ⟨p, false⟩) fs =
      (.ready ⟨p, true⟩,
        { fs with files := fs.files.filter (· ≠ resolve fs p) }, [p]) := by
    simp [DelObj.del, CleanupWithDel.cleanup, hstep]
  rw [hdel]
  refine ⟨rfl, ?_⟩
  have hr' : ∀ l, resolve { fs with files := l } p = resolve fs p :=
    fun _ => rfl
  simp [pathExists, hr', List.mem_filter, hnd]

/-- C6, witness: a handle built on `/tmp/f1`; after `__del__` the file is
gone. -/
theorem scope_exit_deletes_file_witness :
    (DelObj.del tdW (.ready ⟨fW, false⟩) fsW).2.2 = [fW] ∧
    pathExists (DelObj.del tdW (.ready ⟨fW, false⟩) fsW).2.1 fW = false :=
  scope_exit_deletes_file fsW tdW (.path fW) fW (by decide) (by decide)
    (by decide) (by decide)

/-! ## The drain loop of `_on_finalize` -/

/-- When every snapshotted reference is live, the drain loop calls
`cleanup()` exactly on the snapshot, in order. -/
theorem drainLoop_calls (td : PyPath) (l : List Nat) (st : DrainSt)
    (h : ∀ i ∈ l, i < st.heap.length) :
    (drainLoop td l st).calls = st.calls ++ l := by
  induction l generalizing st with
  | nil => simp [drainLoop]
  | cons i rest ih =>
    have hi : i < st.heap.length := h i (by simp)
    have he : st.heap[i]? = some st.heap[i] := List.getElem?_eq_getElem hi
    rw [drainLoop, he]
    rw [ih]
    · simp
    · intro j hj
      simpa [List.length_set] using h j (by simp [hj])

/-- Every `cleanup()` call the drain loop makes is on a snapshotted
reference. -/
theorem drainLoop_calls_sub (td : PyPath) (l : List Nat) (st : DrainSt) :
    ∀ i ∈ (drainLoop td l st).calls, i ∈ st.calls ++ l := by
  induction l generalizing st with
  | nil => simp [drainLoop]
  | cons j rest ih =>
    intro i hi
    rw [drainLoop] at hi
    cases he : st.heap[j]? with
    | some e =>
      rw [he] at hi
      have h2 := ih _ i hi
      simp only [List.mem_append, List.mem_singleton, List.mem_cons]
        at h2 ⊢
      tauto
    | none =>
      rw [he] at hi
      have h2 := ih _ i hi
      simp only [List.mem_append, List.mem_cons] at h2 ⊢
      tauto

/-! ## C4 — drain processes a snapshot in order and empties the registry -/

/-- C4.  For every registry state (and whatever is enrolled while the loop
runs), `_on_finalize` invokes `cleanup()` exactly on the entries of its
snapshot — the registry as it was when the drain started — in insertion
order, and afterwards the registry is empty. -/
theorem drain_snapshot_in_order_then_empty (td : PyPath) (w : World)
    (midAdds : List Nat) (hvalid : ∀ i ∈ w.registry, i < w.heap.length) :
    (onFinalize td w midAdds).calls = w.registry ∧
    (onFinalize td w midAdds).world.registry = [] := by
  refine ⟨?_, rfl⟩
  unfold onFinalize
  exact drainLoop_calls td w.registry ⟨w.heap, w.fs, [], []⟩ hvalid

/-- C4, witness: both enrolled handles (one per class) are cleaned in
insertion order and the registry comes out empty. -/
theorem drain_snapshot_in_order_then_empty_witness :
    (onFinalize tdW wDrain []).calls = wDrain.registry ∧
    (onFinalize tdW wDrain []).world.registry = [] :=
  drain_snapshot_in_order_then_empty tdW wDrain [] (by decide)

/-! ## C5 — a second drain -/

/-- C5, counterexample.  The claim says a second drain is a no-op regardless
of the registry contents, even if new handles were enrolled between the two
drains.  Scenario: drain a registry holding the handle for `/tmp/f1`, then
enroll a fresh handle for `/tmp/f2`, then drain again — the second drain
performs a deletion attempt on `/tmp/f2`, so it is not a no-op. -/
theorem second_drain_counterexample :
    (onFinalize tdW wC5 []).attempts = [fW] ∧
    (onFinalize tdW
        ((onFinalize tdW wC5 []).world.enroll (.withDel ⟨fW2, false⟩)).1
        []).attempts = [fW2] := by
  decide

/-- C5, amended.  A second drain immediately after a drain — with nothing
enrolled in between — is a no-op: the drained registry is empty, so the
second `_on_finalize` makes no `cleanup()` call, no deletion attempt, and
changes nothing.  A handle enrolled between the two drains, however, does
have its `cleanup()` invoked by the second drain. -/
theorem second_drain_noop_unless_enrolled (td : PyPath) (w : World)
    (midAdds : List Nat) (e : Entry) :
    onFinalize td (onFinalize td w midAdds).world [] =
      ⟨(onFinalize td w midAdds).world, [], []⟩ ∧
    (onFinalize td ((onFinalize td w midAdds).world.enroll e).1 []).calls =
      [(onFinalize td w midAdds).world.heap.length] := by
  constructor
  · rfl
  · have hreg : ((onFinalize td w midAdds).world.enroll e).1.registry =
        [(onFinalize td w midAdds).world.heap.length] := rfl
    have hvalid : ∀ i ∈ ((onFinalize td w midAdds).world.enroll e).1.registry,
        i < ((onFinalize td w midAdds).world.enroll e).1.heap.length := by
      intro i hi
      rw [hreg] at hi
      simp only [List.mem_singleton] at hi
      subst hi
      show _ < ((onFinalize td w midAdds).world.heap ++ [e]).length
      simp
    have h := drainLoop_calls td
      ((onFinalize td w midAdds).world.enroll e).1.registry
      ⟨((onFinalize td w midAdds).world.enroll e).1.heap,
        ((onFinalize td w midAdds).world.enroll e).1.fs, [], []⟩ hvalid
    rw [hreg] at h
    exact h

/-! ## C9 — handles enrolled while a drain is running -/

/-- C9, counterexample.  The claim says a handle enrolled after the drain's
snapshot was taken remains pending and is cleaned by a later drain.
Scenario: the registry holds handle `0` (`/tmp/f1`); while the drain runs,
handle `1` (`/tmp/f2`) is enrolled.  The drain calls `cleanup()` only on
handle `0`, its final `clear()` empties the registry — discarding handle `1`
without any cleanup attempt — and the next drain is a strict no-op, so no
later drain ever cleans handle `1`. -/
theorem midDrain_enrollment_counterexample :
    (onFinalize tdW wC9 [1]).calls = [0] ∧
    (onFinalize tdW wC9 [1]).attempts = [fW] ∧
    (onFinalize tdW wC9 [1]).world.registry = [] ∧
    onFinalize tdW (onFinalize tdW wC9 [1]).world [] =
      ⟨(onFinalize tdW wC9 [1]).world, [], []⟩ := by
  decide

/-- C9, amended.  Every `cleanup()` call a drain makes is on a handle of its
snapshot: a handle enrolled while the drain runs receives no cleanup from
it, and the drain's final `clear()` leaves the registry empty, so the
mid-drain enrollment is discarded without any registry-initiated cleanup
attempt, now or by a later drain. -/
theorem midDrain_enrollment_discarded (td : PyPath) (w : World)
    (midAdds : List Nat) (i : Nat)
    (hi : i ∈ (onFinalize td w midAdds).calls) :
    i ∈ w.registry ∧ (onFinalize td w midAdds).world.registry = [] := by
  refine ⟨?_, rfl⟩
  have := drainLoop_calls_sub td w.registry ⟨w.heap, w.fs, [], []⟩ i hi
  simpa using this

/-- C9, amended, witness: in the mid-drain scenario the one cleaned handle,
`0`, was in the pre-drain registry, and the registry ends empty. -/
theorem midDrain_enrollment_discarded_witness :
    (0 ∈ (onFinalize tdW wC9 [1]).calls) ∧
    (0 ∈ wC9.registry ∧ (onFinalize tdW wC9 [1]).world.registry = []) :=
  ⟨by decide, midDrain_enrollment_discarded tdW wC9 [1] 0 (by decide)⟩

end AtexitTempfile
